import Mathlib

/-!
Verification of the session-lifecycle and storefront data-normalization logic
of the Rare launcher, shallowly embedded from `src/rare/app.py` and
`src/rare/components/tabs/shop/shop_models.py`.

JSON documents are modelled by the inductive `PyVal`; Python `dict` becomes an
association list with string keys (the documents are JSON, so keys are
strings), `KeyError` / `TypeError` / `AttributeError` become an explicit
`Except PyErr` result.  Python string operations (`replace`, `startswith`,
`lstrip`, `upper`, `capitalize`, slicing) are re-implemented over `List Char`
with Python's semantics.  `datetime` values are modelled by `PyDateTime` with
`timedelta` subtraction realised through a proleptic-Gregorian epoch
conversion, and `timedelta.total_seconds` as an exact rational (the float
rounding of CPython is immaterial at the magnitudes involved and is not
modelled).
-/

/-- A loosely-typed Python/JSON value.  Tuples, floats and non-string dict
keys do not occur in the two documents the shop parser consumes, so they are
not represented. -/
inductive PyVal where
  | s : String → PyVal
  | b : Bool → PyVal
  | i : Int → PyVal
  | none : PyVal
  | list : List PyVal → PyVal
  | dict : List (String × PyVal) → PyVal

/-- The Python exceptions the embedded code can raise. -/
inductive PyErr where
  | keyError (k : String)
  | typeError
  | attributeError
  | indexError
deriving DecidableEq

/-- First-match lookup in an association list, i.e. lookup in a Python dict
whose keys are unique. -/
def lookupStr : List (String × PyVal) → String → Option PyVal
  | [], _ => Option.none
  | (k0, v) :: rest, k => if k0 = k then some v else lookupStr rest k

/-- Python `v[k]` for a string key `k`: a `KeyError` on a dict without the
key, a `TypeError` on any non-dict value (subscripting a list or string with
a string key). -/
def getItem (v : PyVal) (k : String) : Except PyErr PyVal :=
  match v with
  | PyVal.dict kvs =>
      match lookupStr kvs k with
      | some x => Except.ok x
      | Option.none => Except.error (PyErr.keyError k)
  | _ => Except.error PyErr.typeError

/-- Python `v.get(k, dflt)`: only dicts have `.get`, anything else raises
`AttributeError`. -/
def pyDictGet (v : PyVal) (k : String) (dflt : PyVal) : Except PyErr PyVal :=
  match v with
  | PyVal.dict kvs => Except.ok ((lookupStr kvs k).getD dflt)
  | _ => Except.error PyErr.attributeError

/-- Python iteration `for x in v`: a list yields its elements, a dict its
keys, a string its characters (as one-character strings); other values are
not iterable. -/
def pyIter : PyVal → Except PyErr (List PyVal)
  | PyVal.list xs => Except.ok xs
  | PyVal.dict kvs => Except.ok (kvs.map fun kv => PyVal.s kv.1)
  | PyVal.s str => Except.ok (str.data.map fun c => PyVal.s (String.mk [c]))
  | _ => Except.error PyErr.typeError

/-- Python `v == lit` for a string literal `lit`: true only for an equal
string, false for every other value. -/
def pyEqStr (v : PyVal) (lit : String) : Bool :=
  match v with
  | PyVal.s t => t == lit
  | _ => false

/-- Python truthiness of a value. -/
def pyTruthy : PyVal → Bool
  | PyVal.s t => !(t == "")
  | PyVal.b bv => bv
  | PyVal.i n => !(n == 0)
  | PyVal.none => false
  | PyVal.list xs => !xs.isEmpty
  | PyVal.dict kvs => !kvs.isEmpty

/-- Whether a value may be used as a Python dict key (lists and dicts are
unhashable).  Cross-type `bool`/`int` key equality is not modelled; it does
not arise for JSON system types and requirement titles. -/
def PyVal.hashable : PyVal → Bool
  | PyVal.list _ => false
  | PyVal.dict _ => false
  | _ => true

/-- Equality of hashable (scalar) values, as used for dict keys. -/
def scalarEq : PyVal → PyVal → Bool
  | PyVal.s a, PyVal.s b2 => a == b2
  | PyVal.b a, PyVal.b b2 => a == b2
  | PyVal.i a, PyVal.i b2 => a == b2
  | PyVal.none, PyVal.none => true
  | _, _ => false

/-- Python dict assignment `d[k] = v` on an association list: an existing key
keeps its position and gets the new value, a new key is appended. -/
def assocSet {α : Type} : List (PyVal × α) → PyVal → α → List (PyVal × α)
  | [], k, v => [(k, v)]
  | (k0, v0) :: rest, k, v =>
      if scalarEq k0 k then (k0, v) :: rest else (k0, v0) :: assocSet rest k v

/-- Worker for `pyReplaceS`, structurally recursive on a fuel bounded by the
subject's length (each step consumes at least one character when the pattern
is nonempty, which is the only way the source calls it). -/
def pyReplaceAux (pat rep : List Char) : Nat → List Char → List Char
  | 0, str => str
  | _ + 1, [] => []
  | fuel + 1, c :: rest =>
      if pat ≠ [] ∧ pat.isPrefixOf (c :: rest) then
        rep ++ pyReplaceAux pat rep fuel ((c :: rest).drop pat.length)
      else c :: pyReplaceAux pat rep fuel rest

/-- Python `s.replace(pat, rep)` for a nonempty pattern: every
non-overlapping occurrence is replaced, scanning left to right. -/
def pyReplaceS (str pat rep : String) : String :=
  String.mk (pyReplaceAux pat.data rep.data str.data.length str.data)

/-- Python `s.startswith(pre)`. -/
def pyStartsWith (str pre : String) : Bool := pre.data.isPrefixOf str.data

/-- Python `s.upper()` (ASCII). -/
def pyUpper (str : String) : String := String.mk (str.data.map Char.toUpper)

/-- Python `s.capitalize()`: first character upper-cased, the rest
lower-cased. -/
def pyCapitalize (str : String) : String :=
  match str.data with
  | [] => ""
  | c :: rest => String.mk (c.toUpper :: rest.map Char.toLower)

/-- Python `s.lstrip("/")`: remove every leading slash. -/
def pyLstripSlashes (str : String) : String :=
  String.mk (str.data.dropWhile (· == '/'))

/-- Python `s[:-1]`: drop the last character. -/
def pyStripLast (str : String) : String := String.mk str.data.dropLast

/-- POSIX `os.path.join(a, b)`: an absolute second component replaces the
first, otherwise the components are joined with a single separator. -/
def pyPathJoin (a b2 : String) : String :=
  if pyStartsWith b2 "/" then b2
  else if a = "" ∨ "/".data.isSuffixOf a.data then a ++ b2
  else a ++ "/" ++ b2

/-- The image-URL record of `shop_models.ImageUrlModel.__init__`; the values
come from untyped JSON, so the fields hold `PyVal`. -/
structure ImageUrlModel where
  front_tall : PyVal := PyVal.s ""
  offer_image_tall : PyVal := PyVal.s ""
  thumbnail : PyVal := PyVal.s ""
  front_wide : PyVal := PyVal.s ""
  offer_image_wide : PyVal := PyVal.s ""

/-- One iteration of the loop in `ImageUrlModel.from_json`: match
`item["type"]` against the fixed tag vocabulary and assign `item["url"]`. -/
def ImageUrlModel.fromJsonStep (tmp : ImageUrlModel) (item : PyVal) :
    Except PyErr ImageUrlModel := do
  let t ← getItem item "type"
  if pyEqStr t "Thumbnail" then do
    let u ← getItem item "url"
    pure { tmp with thumbnail := u }
  else if pyEqStr t "DieselStoreFrontTall" then do
    let u ← getItem item "url"
    pure { tmp with front_tall := u }
  else if pyEqStr t "DieselStoreFrontWide" then do
    let u ← getItem item "url"
    pure { tmp with front_wide := u }
  else if pyEqStr t "OfferImageTall" then do
    let u ← getItem item "url"
    pure { tmp with offer_image_tall := u }
  else if pyEqStr t "OfferImageWide" then do
    let u ← getItem item "url"
    pure { tmp with offer_image_wide := u }
  else pure tmp

/-- `shop_models.ImageUrlModel.from_json`. -/
def ImageUrlModel.from_json (json_data : PyVal) : Except PyErr ImageUrlModel := do
  let items ← pyIter json_data
  items.foldlM ImageUrlModel.fromJsonStep {}

/-- The per-system requirements table `tmp.reqs`: system type ↦ requirement
title ↦ (minimum, recommended). -/
abbrev ReqTable := List (PyVal × List (PyVal × (PyVal × PyVal)))

/-- The unified game record of `shop_models.ShopGame.__init__`; field
defaults are the constructor defaults (`namespace` is spelled `nameSpace`
because `namespace` is a Lean keyword).  `available_voice_langs` exists only
on instances produced by `from_json`; its `PyVal.none` default stands for the
attribute being absent. -/
structure ShopGame where
  title : PyVal := PyVal.s ""
  image_urls : Option ImageUrlModel := Option.none
  links : List (String × PyVal) := []
  languages : PyVal := PyVal.none
  available_voice_langs : PyVal := PyVal.none
  reqs : Option ReqTable := Option.none
  publisher : PyVal := PyVal.s ""
  developer : PyVal := PyVal.s ""
  price : PyVal := PyVal.s ""
  discount_price : PyVal := PyVal.s ""
  tags : PyVal := PyVal.none
  nameSpace : PyVal := PyVal.s ""
  offer_id : PyVal := PyVal.s ""

/-- The `for product in api_data` scan of `ShopGame.from_json`: the first
entry whose `"_title"` is `"home"` is selected; with no match `api_data`
stays the original list; a missing `"_title"` raises before later entries
are looked at. -/
def selectHome : List PyVal → PyVal → Except PyErr PyVal
  | [], orig => Except.ok orig
  | p :: rest, orig => do
      let t ← getItem p "_title"
      if pyEqStr t "home" then Except.ok p else selectHome rest orig

/-- Python `v[0]`. -/
def pySubscriptZero (v : PyVal) : Except PyErr PyVal :=
  match v with
  | PyVal.list (x :: _) => Except.ok x
  | PyVal.list [] => Except.error PyErr.indexError
  | PyVal.s str =>
      match str.data with
      | c :: _ => Except.ok (PyVal.s (String.mk [c]))
      | [] => Except.error PyErr.indexError
  | PyVal.dict _ => Except.error (PyErr.keyError "0")
  | _ => Except.error PyErr.typeError

/-- One iteration of the social-links loop of `ShopGame.from_json`
(lines 73-75): the loop iterates the mapping, keeps keys starting with
`"link"`, and pairs `item.replace("link", "")` with `links[item]`. -/
def collectStep (linksV : PyVal) (acc : List (String × PyVal)) (item : PyVal) :
    Except PyErr (List (String × PyVal)) :=
  match item with
  | PyVal.s str =>
      if pyStartsWith str "link" then do
        let v ← getItem linksV str
        pure (acc ++ [(pyReplaceS str "link" "", v)])
      else pure acc
  | _ => Except.error PyErr.attributeError

/-- The social-links extraction loop of `ShopGame.from_json` (lines 72-75),
starting from `tmp.links = []`. -/
def collectLinks (linksV : PyVal) : Except PyErr (List (String × PyVal)) := do
  let items ← pyIter linksV
  items.foldlM (collectStep linksV) []

/-- The inner `for req in system["details"]` body: the assignment's right-hand
side evaluates `req["minimum"]` and `req["recommended"]` first, then the
target evaluates `req["title"]`; a `KeyError` from any of the three is caught
and skips the entry, any other error propagates.  `sysT` is the system-type
key just inserted into `tmp.reqs`. -/
def reqStep (sysT : PyVal) (reqs : ReqTable) (req : PyVal) :
    Except PyErr ReqTable :=
  match getItem req "minimum" with
  | Except.error (PyErr.keyError _) => Except.ok reqs
  | Except.error e => Except.error e
  | Except.ok mn =>
      match getItem req "recommended" with
      | Except.error (PyErr.keyError _) => Except.ok reqs
      | Except.error e => Except.error e
      | Except.ok rc =>
          match getItem req "title" with
          | Except.error (PyErr.keyError _) => Except.ok reqs
          | Except.error e => Except.error e
          | Except.ok ttl =>
              if ttl.hashable then
                Except.ok (reqs.map fun kv =>
                  if scalarEq kv.1 sysT then (kv.1, assocSet kv.2 ttl (mn, rc))
                  else kv)
              else Except.error PyErr.typeError

/-- One iteration of the `for i, system in enumerate(...)` loop of
`ShopGame.from_json` (lines 77-86): a `KeyError` on `system["systemType"]`
is caught and skips the whole block, while `system["details"]` is read
outside any `try` and its errors propagate. -/
def systemStep (reqs : ReqTable) (system : PyVal) : Except PyErr ReqTable :=
  match getItem system "systemType" with
  | Except.error (PyErr.keyError _) => Except.ok reqs
  | Except.error e => Except.error e
  | Except.ok sysT =>
      if sysT.hashable then do
        let reqs1 := assocSet reqs sysT []
        let detailsV ← getItem system "details"
        let details ← pyIter detailsV
        details.foldlM (reqStep sysT) reqs1
      else Except.error PyErr.typeError

/-- One iteration of the developer-fallback scan of `ShopGame.from_json`
(lines 90-92): every entry whose `"key"` equals `"developerName"` overwrites
the developer with its `"value"` (no break, last match wins). -/
def devStep (dev : PyVal) (attr : PyVal) : Except PyErr PyVal := do
  let k ← getItem attr "key"
  if pyEqStr k "developerName" then getItem attr "value" else pure dev

/-- One element of the tag list comprehension of `ShopGame.from_json`
(line 95): `i.replace("_", " ").capitalize()`; a non-string raises
`AttributeError`. -/
def tagNorm (item : PyVal) : Except PyErr PyVal :=
  match item with
  | PyVal.s t => Except.ok (PyVal.s (pyCapitalize (pyReplaceS t "_" " ")))
  | _ => Except.error PyErr.attributeError

/-- `shop_models.ShopGame.from_json`, line by line in source order; every
bare subscript is a fallible `getItem`, every `.get` a `pyDictGet`. -/
def ShopGame.from_json (api_data0 search_data : PyVal) : Except PyErr ShopGame := do
  let api_data1 ←
    match api_data0 with
    | PyVal.list products => selectHome products (PyVal.list products)
    | _ => Except.ok api_data0
  let api_data ←
    match api_data1 with
    | PyVal.dict kvs =>
        if (lookupStr kvs "pages").isSome then do
          let pages ← getItem api_data1 "pages"
          pySubscriptZero pages
        else Except.ok api_data1
    | _ => Except.error PyErr.attributeError
  let title ← pyDictGet search_data "title" (PyVal.s "Fail")
  let keyImages ← getItem search_data "keyImages"
  let image_urls ← ImageUrlModel.from_json keyImages
  let data ← getItem api_data "data"
  let linksV ← getItem data "socialLinks"
  let links ← collectLinks linksV
  let requirements ← getItem data "requirements"
  let available_voice_langs ← pyDictGet requirements "languages" (PyVal.s "Failed")
  let systemsV ← pyDictGet requirements "systems" (PyVal.list [])
  let systems ← pyIter systemsV
  let reqs ← systems.foldlM systemStep []
  let meta ← getItem data "meta"
  let publisher ← pyDictGet meta "publisher" (PyVal.s "")
  let developer0 ← pyDictGet meta "developer" (PyVal.s "")
  let developer ←
    if pyTruthy developer0 then Except.ok developer0
    else do
      let cattrsV ← getItem search_data "customAttributes"
      let cattrs ← pyIter cattrsV
      cattrs.foldlM devStep developer0
  let priceV ← getItem search_data "price"
  let totalPrice ← getItem priceV "totalPrice"
  let fmtPrice ← getItem totalPrice "fmtPrice"
  let price ← getItem fmtPrice "originalPrice"
  let discount_price ← getItem fmtPrice "discountPrice"
  let tagsV ← pyDictGet meta "tags" (PyVal.list [])
  let tagItems ← pyIter tagsV
  let tags ← tagItems.mapM tagNorm
  let ns ← getItem search_data "namespace"
  let offer_id ← getItem search_data "id"
  Except.ok
    { title := title, image_urls := some image_urls, links := links,
      languages := PyVal.none, available_voice_langs := available_voice_langs,
      reqs := some reqs, publisher := publisher, developer := developer,
      price := price, discount_price := discount_price,
      tags := PyVal.list tags, nameSpace := ns, offer_id := offer_id }

/-- A `datetime.datetime` value (naive, microsecond resolution). -/
structure PyDateTime where
  year : Nat
  month : Nat
  day : Nat
  hour : Nat
  minute : Nat
  second : Nat
  microsecond : Nat
deriving DecidableEq

/-- Numeric value of an ASCII digit. -/
def digitVal (c : Char) : Option Nat :=
  if '0' ≤ c ∧ c ≤ '9' then some (c.toNat - 48) else none

/-- Two-digit decimal field. -/
def num2 (a b2 : Char) : Option Nat := do
  let x ← digitVal a
  let y ← digitVal b2
  pure (x * 10 + y)

/-- Four-digit decimal field. -/
def num4 (a b2 c d : Char) : Option Nat := do
  let x ← num2 a b2
  let y ← num2 c d
  pure (x * 100 + y)

/-- Gregorian leap year. -/
def isLeap (y : Nat) : Bool := y % 4 = 0 && (y % 100 ≠ 0 || y % 400 = 0)

/-- Days in a month of the Gregorian calendar. -/
def daysInMonth (y m : Nat) : Nat :=
  if m = 2 then (if isLeap y then 29 else 28)
  else if m = 4 ∨ m = 6 ∨ m = 9 ∨ m = 11 then 30 else 31

/-- Range-checked construction, as `datetime.datetime` validates its
fields. -/
def mkDT (yv mo d h mi sec us : Nat) : Option PyDateTime :=
  if 1 ≤ mo ∧ mo ≤ 12 ∧ 1 ≤ d ∧ d ≤ daysInMonth yv mo ∧ h ≤ 23 ∧ mi ≤ 59 ∧ sec ≤ 59 then
    some ⟨yv, mo, d, h, mi, sec, us⟩
  else none

/-- Model of Python's `datetime.fromisoformat`, restricted to the
`YYYY-MM-DDTHH:MM:SS` and `YYYY-MM-DDTHH:MM:SS.ffffff` shapes the backend's
`expires_at` takes after its trailing zone marker is sliced off. -/
def fromisoformat (str : String) : Option PyDateTime :=
  match str.data with
  | [y1, y2, y3, y4, '-', m1, m2, '-', d1, d2, 'T', h1, h2, ':', i1, i2, ':', s1, s2] => do
      let yv ← num4 y1 y2 y3 y4
      let mo ← num2 m1 m2
      let dv ← num2 d1 d2
      let hv ← num2 h1 h2
      let iv ← num2 i1 i2
      let sv ← num2 s1 s2
      mkDT yv mo dv hv iv sv 0
  | [y1, y2, y3, y4, '-', m1, m2, '-', d1, d2, 'T', h1, h2, ':', i1, i2, ':', s1, s2,
     '.', f1, f2, f3, f4, f5, f6] => do
      let yv ← num4 y1 y2 y3 y4
      let mo ← num2 m1 m2
      let dv ← num2 d1 d2
      let hv ← num2 h1 h2
      let iv ← num2 i1 i2
      let sv ← num2 s1 s2
      let u1 ← num4 '0' '0' f1 f2
      let u2 ← num4 f3 f4 f5 f6
      mkDT yv mo dv hv iv sv (u1 * 10000 + u2)
  | _ => none

/-- Days since 1970-01-01 of a proleptic-Gregorian civil date (the standard
days-from-civil algorithm). -/
def daysFromCivil (y : Int) (m d : Nat) : Int :=
  let y' : Int := if m ≤ 2 then y - 1 else y
  let era : Int := (if 0 ≤ y' then y' else y' - 399).tdiv 400
  let yoe : Int := y' - era * 400
  let mp : Nat := (m + 9) % 12
  let doy : Int := ((153 * mp + 2) / 5 + d - 1 : Nat)
  let doe : Int := yoe * 365 + yoe.tdiv 4 - yoe.tdiv 100 + doy
  era * 146097 + doe - 719468

/-- Microseconds since the epoch; `datetime` subtraction is the difference of
these counts. -/
def toEpochUs (dt : PyDateTime) : Int :=
  (daysFromCivil dt.year dt.month dt.day * 86400
    + dt.hour * 3600 + dt.minute * 60 + dt.second) * 1000000 + dt.microsecond

/-- `timedelta.total_seconds()` of a microsecond count, as an exact
rational. -/
def total_seconds (us : Int) : ℚ := (us : ℚ) / 1000000

/-- Python `int()` on a real number: truncation toward zero. -/
def pyInt (q : ℚ) : Int := q.num.tdiv q.den

/-- The millisecond delay passed to `timer.start` in `App.__init__`
(lines 86-91) and `App.re_login` (lines 100-103):
`int(abs(dt_exp - dt_now).total_seconds() - 60) * 1000`. -/
def timerStartMs (expUs nowUs : Int) : Int :=
  pyInt (total_seconds |expUs - nowUs| - 60) * 1000

/-- The session state the re-login logic touches: the stored
`core.lgd.userdata["expires_at"]` string and the pending timer delay. -/
structure Session where
  expires_at : String
  timerMs : Int
deriving DecidableEq

/-- Possible outcomes of the `core.login()` call inside `re_login`; a
successful renewal leaves a fresh `expires_at` in the backend's userdata. -/
inductive LoginOutcome where
  | success (newExpiresAt : String)
  | connectionError
  | fatalError
deriving DecidableEq

/-- The delay `App.__init__` (lines 86-91) hands to `timer.start`, from the
stored `expires_at` (trailing zone marker sliced off with `[:-1]`) and the
current `datetime.utcnow()` in epoch microseconds; `none` when
`fromisoformat` raises. -/
def App.initTimerDelayMs (expires_at : String) (nowUs : Int) : Option Int :=
  (fromisoformat (pyStripLast expires_at)).map fun dtExp =>
    timerStartMs (toEpochUs dtExp) nowUs

/-- `App.re_login` (lines 93-103): a `ConnectionError` only restarts the
timer at 3000 ms and returns; a successful login recomputes the delay from
the renewed `expires_at` exactly as `App.__init__` does; any other exception
propagates. -/
def App.re_login (st : Session) (outcome : LoginOutcome) (nowUs : Int) :
    Except String Session :=
  match outcome with
  | LoginOutcome.connectionError => Except.ok { st with timerMs := 3000 }
  | LoginOutcome.fatalError => Except.error "uncaught exception reaches excepthook"
  | LoginOutcome.success newExp =>
      match fromisoformat (pyStripLast newExp) with
      | some dtExp =>
          Except.ok { expires_at := newExp, timerMs := timerStartMs (toEpochUs dtExp) nowUs }
      | Option.none => Except.error "ValueError in fromisoformat"

/-- An installed-game record as `App.start_app` reads and mutates it. -/
structure InstalledGame where
  app_name : String
  title : String
  install_path : String
  executable : String
  needs_verification : Bool
deriving DecidableEq

/-- The ambient state the verification sweep consults: `os.path.exists` and
the per-game `override_exe` config lookup (empty-string fallback). -/
structure FsEnv where
  pathExists : String → Bool
  override_exe : String → String

/-- The externally visible calls the sweep makes into the backend library. -/
inductive Effect where
  | uninstall_game (app_name : String) (keep_files : Bool)
  | set_installed_game (app_name : String) (igame : InstalledGame)
deriving DecidableEq

/-- The per-record body of the sweep loop in `App.start_app` (lines 106-123):
a missing install path uninstalls with `keep_files=True` and continues; an
existing install path resolves the executable (config override when nonempty,
else the record's), normalizes `\` to `/`, strips leading `/`, joins with the
install path, and on a missing result sets `needs_verification` and persists
the record.  Returns the record as the sweep leaves it and the backend calls
made. -/
def App.checkGame (env : FsEnv) (igame : InstalledGame) :
    InstalledGame × List Effect :=
  if env.pathExists igame.install_path = false then
    (igame, [Effect.uninstall_game igame.app_name true])
  else
    let override := env.override_exe igame.app_name
    let igame_executable := if override = "" then igame.executable else override
    let joined :=
      pyPathJoin igame.install_path (pyLstripSlashes (pyReplaceS igame_executable "\\" "/"))
    if env.pathExists joined = false then
      let igame' := { igame with needs_verification := true }
      (igame', [Effect.set_installed_game igame.app_name igame'])
    else (igame, [])

/-- The whole verification sweep of `App.start_app` over
`core.get_installed_list()`. -/
def App.start_app (env : FsEnv) (games : List InstalledGame) : List Effect :=
  games.flatMap fun g => (App.checkGame env g).2

/-- Observable events of one iteration of the outer `while True` loop in
`start` (lines 184-195): every iteration initializes the core and runs the
app (`startup`), then unconditionally tears the core down (`coreTeardown`);
a non-sentinel exit code breaks the loop (`terminate`). -/
inductive LoopEvent where
  | startup
  | coreTeardown
  | terminate
deriving DecidableEq, BEq

/-- The outer restart loop of `start`, driven by the exit codes the
successive app runs return (the list is the fuel: an empty remainder means
the observation window closed while the loop was still running). -/
def start_loop : List Int → List LoopEvent
  | [] => []
  | code :: rest =>
      LoopEvent.startup :: LoopEvent.coreTeardown ::
        (if code = -133742 then start_loop rest else [LoopEvent.terminate])

/-- The browse-query record of `shop_models.BrowseModel`; defaults are the
dataclass defaults, with the ambient `get_lang()` and construction-time
clock/randomness supplied through `mkBrowseModel`. -/
structure BrowseModel where
  category : String := "games/edition/base|bundles/games|editors|software/edition/base"
  count : Int := 30
  locale : String
  keywords : String := ""
  sortDir : String := "DESC"
  start : Int := 0
  tag : String := ""
  withMapping : Bool := true
  withPrice : Bool := true
  date : String
  price : String := ""
  onSale : Bool := false

/-- ASCII digit character of `n % 10`. -/
def digitChar (n : Nat) : Char := Char.ofNat (48 + n % 10)

/-- Two-digit zero-padded decimal rendering. -/
def pad2 (n : Nat) : String := String.mk [digitChar (n / 10), digitChar n]

/-- Four-digit zero-padded decimal rendering. -/
def pad4 (n : Nat) : String :=
  String.mk [digitChar (n / 1000), digitChar (n / 100), digitChar (n / 10), digitChar n]

/-- `datetime.strftime(now, "%Y-%m-%dT%X")`. -/
def strftimeX (dt : PyDateTime) : String :=
  pad4 dt.year ++ "-" ++ pad2 dt.month ++ "-" ++ pad2 dt.day ++ "T"
    ++ pad2 dt.hour ++ ":" ++ pad2 dt.minute ++ ":" ++ pad2 dt.second

/-- `str(random.randint(0, 999)).zfill(3)`: the bound makes this exactly
three digits. -/
def zfill3 (r : Fin 1000) : String :=
  String.mk [digitChar (r.val / 100), digitChar (r.val / 10), digitChar r.val]

/-- The `date` default expression of `BrowseModel` (line 114), evaluated at
the clock reading `now` with the random draw `r`. -/
def dateExpr (now : PyDateTime) (r : Fin 1000) : String :=
  "[," ++ strftimeX now ++ "." ++ zfill3 r ++ "Z]"

/-- Construction of a `BrowseModel` with every dataclass default, given the
ambient language, clock and random draw the defaults read. -/
def mkBrowseModel (lang : String) (now : PyDateTime) (r : Fin 1000) : BrowseModel :=
  { locale := lang, date := dateExpr now r }

/-- The `__dict__` property of `BrowseModel` (lines 117-141).  The ambient
clock and randomness available at serialization time are threaded in as
`serNow` and `serRand` to make dependence on them expressible; the property's
body reads only the instance's fields, so they are never consulted. -/
def BrowseModel.dictAt (m : BrowseModel) (serNow : PyDateTime) (serRand : Fin 1000) :
    List (String × PyVal) :=
  let payload : List (String × PyVal) :=
    [("category", PyVal.s m.category),
     ("count", PyVal.i m.count),
     ("country", PyVal.s (pyUpper m.locale)),
     ("keywords", PyVal.s m.keywords),
     ("locale", PyVal.s m.locale),
     ("sortDir", PyVal.s m.sortDir),
     ("allowCountries", PyVal.s (pyUpper m.locale)),
     ("start", PyVal.i m.start),
     ("tag", PyVal.s m.tag),
     ("withMapping", PyVal.b m.withMapping),
     ("withPrice", PyVal.b m.withPrice),
     ("releaseDate", PyVal.s m.date),
     ("effectiveDate", PyVal.s m.date)]
  let payload :=
    if m.price = "free" then payload ++ [("freeGame", PyVal.b true)]
    else if pyStartsWith m.price "<price>" then
      payload ++ [("priceRange", PyVal.s (pyReplaceS m.price "<price>" ""))]
    else payload
  let payload := if m.onSale then payload ++ [("onSale", PyVal.b true)] else payload
  payload

/-- Modelled from the spec for comparison with the code: the re-login delay
the claim asserts, `expires_at − now − 60 s`, in milliseconds. -/
def specClaimDelayMs (expUs nowUs : Int) : Int := (expUs - nowUs).tdiv 1000 - 60000

/-- A catalog document holding only the keys `from_json` reads with a bare
subscript, every defaulted field absent. -/
def apiDocMin : PyVal :=
  PyVal.dict [("data", PyVal.dict
    [("socialLinks", PyVal.dict []),
     ("requirements", PyVal.dict []),
     ("meta", PyVal.dict [])])]

/-- A search document holding only the keys `from_json` reads with a bare
subscript, every defaulted field absent. -/
def searchDocMin (ns oid : PyVal) : PyVal :=
  PyVal.dict
    [("keyImages", PyVal.list []),
     ("customAttributes", PyVal.list []),
     ("price", PyVal.dict [("totalPrice", PyVal.dict
        [("fmtPrice", PyVal.dict
          [("originalPrice", PyVal.s "10"), ("discountPrice", PyVal.s "5")])])]),
     ("namespace", ns),
     ("id", oid)]

/-- `searchDocMin` with its `"price"` key removed. -/
def searchDocNoPrice : PyVal :=
  PyVal.dict
    [("keyImages", PyVal.list []),
     ("customAttributes", PyVal.list []),
     ("namespace", PyVal.s "ns"),
     ("id", PyVal.s "oid")]

/-- The minimal search document with one top-level key omitted. -/
def searchDocOmitting (dropKey : String) : PyVal :=
  PyVal.dict (List.filter (fun kv => kv.1 != dropKey)
    [("keyImages", PyVal.list []),
     ("customAttributes", PyVal.list []),
     ("price", PyVal.dict [("totalPrice", PyVal.dict
        [("fmtPrice", PyVal.dict
          [("originalPrice", PyVal.s "10"), ("discountPrice", PyVal.s "5")])])]),
     ("namespace", PyVal.s "ns"),
     ("id", PyVal.s "oid")])

/-- The minimal search document with its price subtree replaced, to probe
each level of the `price.totalPrice.fmtPrice` chain. -/
def searchDocPrice (p : PyVal) : PyVal :=
  PyVal.dict
    [("keyImages", PyVal.list []),
     ("customAttributes", PyVal.list []),
     ("price", p),
     ("namespace", PyVal.s "ns"),
     ("id", PyVal.s "oid")]

/-- The minimal catalog document with one key of its `data` block omitted. -/
def apiDocOmitting (dropKey : String) : PyVal :=
  PyVal.dict [("data", PyVal.dict (List.filter (fun kv => kv.1 != dropKey)
    [("socialLinks", PyVal.dict []),
     ("requirements", PyVal.dict []),
     ("meta", PyVal.dict [])]))]

/-- The minimal catalog document with a two-block `systems` list: the first
block lacks its `systemType` key (and even a `details` key, which would abort
were the block not skipped entirely), the second is well-formed. -/
def apiDocSystems : PyVal :=
  PyVal.dict [("data", PyVal.dict
    [("socialLinks", PyVal.dict []),
     ("requirements", PyVal.dict [("systems", PyVal.list
        [PyVal.dict [("os", PyVal.s "unknown")],
         PyVal.dict
          [("systemType", PyVal.s "Windows"),
           ("details", PyVal.list [PyVal.dict
              [("title", PyVal.s "CPU"), ("minimum", PyVal.s "i3"),
               ("recommended", PyVal.s "i5")]])]])]),
     ("meta", PyVal.dict [])])]

theorem pyInt_intCast (n : Int) : pyInt ((n : ℚ)) = n := by
  unfold pyInt
  rw [Rat.num_intCast, Rat.den_intCast]
  simp

theorem timerStartMs_whole (e n k : Int) (h : |e - n| = 1000000 * k) :
    timerStartMs e n = (k - 60) * 1000 := by
  unfold timerStartMs total_seconds
  rw [h]
  have h2 : ((1000000 * k : Int) : ℚ) / 1000000 - 60 = ((k - 60 : Int) : ℚ) := by
    push_cast
    ring
  rw [h2, pyInt_intCast]

theorem lookupStr_of_mem (kvs : List (String × PyVal))
    (hnd : (kvs.map Prod.fst).Nodup) :
    ∀ kv ∈ kvs, lookupStr kvs kv.1 = some kv.2 := by
  induction kvs with
  | nil => intro kv h; cases h
  | cons hd rest ih =>
      rw [List.map_cons, List.nodup_cons] at hnd
      intro kv hmem
      rcases List.mem_cons.mp hmem with heq | htl
      · subst heq
        simp [lookupStr]
      · have hne : hd.1 ≠ kv.1 := by
          intro hcontra
          exact hnd.1 (hcontra ▸ List.mem_map_of_mem Prod.fst htl)
        simp only [lookupStr, if_neg hne]
        exact ih hnd.2 kv htl

theorem collectLinks_fold (kvs : List (String × PyVal)) (todo : List (String × PyVal))
    (acc : List (String × PyVal))
    (hlk : ∀ kv ∈ todo, lookupStr kvs kv.1 = some kv.2) :
    List.foldlM (collectStep (PyVal.dict kvs)) acc (todo.map fun kv => PyVal.s kv.1) =
      Except.ok (acc ++ todo.filterMap fun kv =>
        if pyStartsWith kv.1 "link" then some (pyReplaceS kv.1 "link" "", kv.2)
        else Option.none) := by
  induction todo generalizing acc with
  | nil => simp [List.foldlM, pure, Except.pure]
  | cons kv rest ih =>
      have hl : getItem (PyVal.dict kvs) kv.1 = Except.ok kv.2 := by
        simp only [getItem, hlk kv (List.mem_cons_self kv rest)]
      have hrest : ∀ kv2 ∈ rest, lookupStr kvs kv2.1 = some kv2.2 := by
        intro kv2 h2
        exact hlk kv2 (List.mem_cons_of_mem kv h2)
      by_cases hsw : pyStartsWith kv.1 "link" = true
      · simp only [List.map_cons, List.foldlM_cons, collectStep, hsw, reduceIte, hl,
          List.filterMap_cons, bind, Except.bind, pure, Except.pure]
        rw [ih (acc ++ [(pyReplaceS kv.1 "link" "", kv.2)]) hrest]
        simp [hsw]
      · simp only [List.map_cons, List.foldlM_cons, collectStep, hsw,
          Bool.false_eq_true, reduceIte, List.filterMap_cons, bind, Except.bind,
          pure, Except.pure]
        rw [ih acc hrest]

/-- C7 (amended): for a social-links mapping with distinct keys, the link
extraction of `ShopGame.from_json` yields exactly one pair per key starting
with `"link"`, whose label is the key with every occurrence of `"link"`
removed (not only the leading one) and whose URL is the key's value; other
keys contribute nothing. -/
theorem collectLinks_characterization (kvs : List (String × PyVal))
    (hnd : (kvs.map Prod.fst).Nodup) :
    collectLinks (PyVal.dict kvs) =
      Except.ok (kvs.filterMap fun kv =>
        if pyStartsWith kv.1 "link" then some (pyReplaceS kv.1 "link" "", kv.2)
        else Option.none) := by
  unfold collectLinks pyIter
  simp only [bind, Except.bind]
  exact collectLinks_fold kvs kvs [] (lookupStr_of_mem kvs hnd)

/-- Witness for the C7 theorem at a concrete two-key mapping. -/
theorem collectLinks_characterization_witness :
    collectLinks (PyVal.dict [("linkFacebook", PyVal.s "fb"), ("twitter", PyVal.s "tw")]) =
      Except.ok
        (([("linkFacebook", PyVal.s "fb"), ("twitter", PyVal.s "tw")] :
            List (String × PyVal)).filterMap fun kv =>
          if pyStartsWith kv.1 "link" then some (pyReplaceS kv.1 "link" "", kv.2)
          else Option.none) :=
  collectLinks_characterization
    [("linkFacebook", PyVal.s "fb"), ("twitter", PyVal.s "tw")] (by decide)

/-- C7 (counterexample): on the key `"linkBacklink"`, the code produces the
label `"Back"` (every `"link"` occurrence removed), not the prefix-stripped
remainder `"Backlink"` the claim asserts. -/
theorem links_label_counterexample :
    collectLinks (PyVal.dict [("linkBacklink", PyVal.s "url")]) =
      Except.ok [("Back", PyVal.s "url")]
    ∧ "Back" ≠ "Backlink" := ⟨rfl, by decide⟩

/-- C1 (counterexample): a search document lacking the `"price"` key makes
`ShopGame.from_json` abort the whole parse with a `KeyError` instead of
substituting an empty default, although every other key the parse needs is
present. -/
theorem shopGame_missing_price_aborts :
    ShopGame.from_json apiDocMin searchDocNoPrice =
      Except.error (PyErr.keyError "price") := rfl

/-- C1 (amended): only the fields read through defaulted access tolerate a
missing key — title (default `"Fail"`, not empty), languages (`"Failed"`),
systems (`[]`), publisher, developer (empty string) and tags (`[]`) — so a
document carrying only the bare-subscript keys parses to those defaults; a
per-system requirement block missing its `systemType` key is skipped
entirely (even its absent `details` key, which would otherwise abort, is
never read) while a well-formed sibling block still parses; and a missing
occurrence of any of the bare-subscript keys — `keyImages`, `data`,
`socialLinks`, `requirements`, `meta`, each level of the
`price`/`totalPrice`/`fmtPrice`/`originalPrice`/`discountPrice` chain,
`namespace`, `id`, and `customAttributes` when the developer is empty —
aborts the whole parse with a `KeyError` naming that key. -/
theorem shopGame_from_json_defaults_and_aborts :
    (∀ ns oid : PyVal,
      ShopGame.from_json apiDocMin (searchDocMin ns oid) =
        Except.ok
          { title := PyVal.s "Fail", image_urls := some {}, links := [],
            languages := PyVal.none, available_voice_langs := PyVal.s "Failed",
            reqs := some [], publisher := PyVal.s "", developer := PyVal.s "",
            price := PyVal.s "10", discount_price := PyVal.s "5",
            tags := PyVal.list [], nameSpace := ns, offer_id := oid })
    ∧ ShopGame.from_json apiDocSystems (searchDocMin (PyVal.s "n") (PyVal.s "o")) =
        Except.ok
          { title := PyVal.s "Fail", image_urls := some {}, links := [],
            languages := PyVal.none, available_voice_langs := PyVal.s "Failed",
            reqs := some [(PyVal.s "Windows",
              [(PyVal.s "CPU", (PyVal.s "i3", PyVal.s "i5"))])],
            publisher := PyVal.s "", developer := PyVal.s "",
            price := PyVal.s "10", discount_price := PyVal.s "5",
            tags := PyVal.list [], nameSpace := PyVal.s "n",
            offer_id := PyVal.s "o" }
    ∧ ShopGame.from_json apiDocMin (searchDocOmitting "keyImages") =
        Except.error (PyErr.keyError "keyImages")
    ∧ ShopGame.from_json (PyVal.dict []) (searchDocMin (PyVal.s "n") (PyVal.s "o")) =
        Except.error (PyErr.keyError "data")
    ∧ ShopGame.from_json (apiDocOmitting "socialLinks")
        (searchDocMin (PyVal.s "n") (PyVal.s "o")) =
        Except.error (PyErr.keyError "socialLinks")
    ∧ ShopGame.from_json (apiDocOmitting "requirements")
        (searchDocMin (PyVal.s "n") (PyVal.s "o")) =
        Except.error (PyErr.keyError "requirements")
    ∧ ShopGame.from_json (apiDocOmitting "meta")
        (searchDocMin (PyVal.s "n") (PyVal.s "o")) =
        Except.error (PyErr.keyError "meta")
    ∧ ShopGame.from_json apiDocMin (searchDocOmitting "price") =
        Except.error (PyErr.keyError "price")
    ∧ ShopGame.from_json apiDocMin (searchDocPrice (PyVal.dict [])) =
        Except.error (PyErr.keyError "totalPrice")
    ∧ ShopGame.from_json apiDocMin
        (searchDocPrice (PyVal.dict [("totalPrice", PyVal.dict [])])) =
        Except.error (PyErr.keyError "fmtPrice")
    ∧ ShopGame.from_json apiDocMin
        (searchDocPrice (PyVal.dict [("totalPrice", PyVal.dict
          [("fmtPrice", PyVal.dict [("discountPrice", PyVal.s "5")])])])) =
        Except.error (PyErr.keyError "originalPrice")
    ∧ ShopGame.from_json apiDocMin
        (searchDocPrice (PyVal.dict [("totalPrice", PyVal.dict
          [("fmtPrice", PyVal.dict [("originalPrice", PyVal.s "10")])])])) =
        Except.error (PyErr.keyError "discountPrice")
    ∧ ShopGame.from_json apiDocMin (searchDocOmitting "namespace") =
        Except.error (PyErr.keyError "namespace")
    ∧ ShopGame.from_json apiDocMin (searchDocOmitting "id") =
        Except.error (PyErr.keyError "id")
    ∧ ShopGame.from_json apiDocMin (searchDocOmitting "customAttributes") =
        Except.error (PyErr.keyError "customAttributes") :=
  ⟨fun _ _ => rfl, rfl, rfl, rfl, rfl, rfl, rfl, rfl, rfl, rfl, rfl, rfl, rfl,
   rfl, rfl⟩

/-- C2 (counterexample): with the session already expired by 30 minutes, the
code schedules `int(abs(exp − now).total_seconds() − 60) · 1000 = 1740000` ms,
while the claimed formula `exp − now − 60 s` gives `−1860000` ms — the `abs`
in the source makes the two differ. -/
theorem reauth_delay_counterexample :
    App.initTimerDelayMs "2021-06-01T00:00:00Z" (toEpochUs ⟨2021, 6, 1, 0, 30, 0, 0⟩) =
      some 1740000
    ∧ specClaimDelayMs (toEpochUs ⟨2021, 6, 1, 0, 0, 0, 0⟩)
        (toEpochUs ⟨2021, 6, 1, 0, 30, 0, 0⟩) = -1860000
    ∧ (1740000 : Int) ≠ -1860000 := by
  refine ⟨?_, by decide, by decide⟩
  have h1 : App.initTimerDelayMs "2021-06-01T00:00:00Z"
      (toEpochUs ⟨2021, 6, 1, 0, 30, 0, 0⟩) =
      some (timerStartMs (toEpochUs ⟨2021, 6, 1, 0, 0, 0, 0⟩)
        (toEpochUs ⟨2021, 6, 1, 0, 30, 0, 0⟩)) := rfl
  rw [h1, timerStartMs_whole _ _ 1800 (by decide)]
  decide

/-- C2 (amended): after the initial login and after every successful
re-login the timer delay is `int(|expires_at − now|.total_seconds() − 60) ·
1000` ms, the identical formula `timerStartMs` at both sites (the stored
`expires_at` has its trailing zone marker sliced off and is parsed with
`fromisoformat`); when the expiry is not in the past and the difference is a
whole number of seconds this equals the claimed `expires_at − now − 60 s`. -/
theorem reauth_delay_formula (s : String) (dt : PyDateTime) (n : Int) (st : Session)
    (hparse : fromisoformat (pyStripLast s) = some dt) :
    App.initTimerDelayMs s n = some (timerStartMs (toEpochUs dt) n)
    ∧ App.re_login st (LoginOutcome.success s) n =
        Except.ok { expires_at := s, timerMs := timerStartMs (toEpochUs dt) n }
    ∧ ∀ e now : Int, now ≤ e → (e - now) % 1000000 = 0 →
        timerStartMs e now = (e - now).tdiv 1000 - 60000 := by
  refine ⟨?_, ?_, ?_⟩
  · unfold App.initTimerDelayMs
    rw [hparse]
    rfl
  · simp only [App.re_login, hparse]
  · intro e now hle hmod
    obtain ⟨k, hk⟩ : (1000000 : Int) ∣ (e - now) := Int.dvd_of_emod_eq_zero hmod
    have hnn : 0 ≤ e - now := by linarith
    have habs : |e - now| = 1000000 * k := by rw [abs_of_nonneg hnn, hk]
    rw [timerStartMs_whole e now k habs, hk]
    have hdiv : (1000000 * k).tdiv 1000 = 1000 * k := by
      have hmul : (1000000 : Int) * k = 1000 * (1000 * k) := by ring
      rw [hmul, Int.mul_tdiv_cancel_left _ (by norm_num)]
    rw [hdiv]
    ring

/-- Witness for the C2 amended theorem at a concrete renewed session. -/
theorem reauth_delay_formula_witness :
    App.initTimerDelayMs "2031-01-01T00:02:00Z" 0 =
      some (timerStartMs (toEpochUs ⟨2031, 1, 1, 0, 2, 0, 0⟩) 0)
    ∧ App.re_login ⟨"old", 0⟩ (LoginOutcome.success "2031-01-01T00:02:00Z") 0 =
        Except.ok { expires_at := "2031-01-01T00:02:00Z",
                    timerMs := timerStartMs (toEpochUs ⟨2031, 1, 1, 0, 2, 0, 0⟩) 0 }
    ∧ timerStartMs 120000000 0 = ((120000000 : Int) - 0).tdiv 1000 - 60000 := by
  obtain ⟨h1, h2, h3⟩ := reauth_delay_formula "2031-01-01T00:02:00Z"
    ⟨2031, 1, 1, 0, 2, 0, 0⟩ 0 ⟨"old", 0⟩ (by rfl)
  exact ⟨h1, h2, h3 120000000 0 (by decide) (by decide)⟩

/-- C3: a record whose install path does not exist is uninstalled with
`keep_files=True` and the loop continues — the record is returned untouched,
no executable resolution or verification flagging happens and nothing is
persisted. -/
theorem sweep_missing_path_uninstalls_keep_files (env : FsEnv) (g : InstalledGame)
    (h : env.pathExists g.install_path = false) :
    App.checkGame env g = (g, [Effect.uninstall_game g.app_name true]) := by
  simp [App.checkGame, h]

/-- Witness for the C3 theorem on a concrete record with no existing path. -/
theorem sweep_missing_path_witness :
    App.checkGame ⟨fun _ => false, fun _ => ""⟩
        ⟨"game1", "Game One", "/games/one", "one.exe", false⟩ =
      (⟨"game1", "Game One", "/games/one", "one.exe", false⟩,
       [Effect.uninstall_game "game1" true]) :=
  sweep_missing_path_uninstalls_keep_files ⟨fun _ => false, fun _ => ""⟩
    ⟨"game1", "Game One", "/games/one", "one.exe", false⟩ rfl

/-- C4: with an existing install path, the effective executable is the
nonempty config override, else the record's executable; backslashes become
slashes and leading slashes are stripped before joining; when the joined
path does not exist the record gets `needs_verification := true` and is
persisted with `set_installed_game`. -/
theorem sweep_missing_executable_flags_verification (env : FsEnv) (g : InstalledGame)
    (hpath : env.pathExists g.install_path = true)
    (hexe : env.pathExists (pyPathJoin g.install_path (pyLstripSlashes (pyReplaceS
        (if env.override_exe g.app_name = "" then g.executable
         else env.override_exe g.app_name) "\\" "/"))) = false) :
    App.checkGame env g =
      ({ g with needs_verification := true },
       [Effect.set_installed_game g.app_name { g with needs_verification := true }]) := by
  simp [App.checkGame, hpath, hexe]

/-- Witness for the C4 theorem: an override-free record whose executable is
missing on disk. -/
theorem sweep_missing_executable_witness :
    App.checkGame ⟨fun p => p == "/games/one", fun _ => ""⟩
        ⟨"game1", "Game One", "/games/one", "\\one.exe", false⟩ =
      (⟨"game1", "Game One", "/games/one", "\\one.exe", true⟩,
       [Effect.set_installed_game "game1"
         ⟨"game1", "Game One", "/games/one", "\\one.exe", true⟩]) :=
  sweep_missing_executable_flags_verification
    ⟨fun p => p == "/games/one", fun _ => ""⟩
    ⟨"game1", "Game One", "/games/one", "\\one.exe", false⟩ (by decide) (by decide)

/-- C5: a `ConnectionError` inside `re_login` restarts the timer at exactly
3000 ms, leaves the stored session state unchanged, and neither recomputes
the expiry (the result does not depend on the clock argument) nor propagates
the exception. -/
theorem re_login_connection_error_retry_3s (st : Session) (n : Int) :
    App.re_login st LoginOutcome.connectionError n =
      Except.ok { expires_at := st.expires_at, timerMs := 3000 } := rfl

/-- C6 (counterexample): for `price = "<price>x<price>"` the serialized
`priceRange` is `"x"` — every occurrence of the `"<price>"` marker is
removed, not only the leading one — while the remainder after the prefix
would be `"x<price>"`. -/
theorem browse_priceRange_counterexample :
    lookupStr (BrowseModel.dictAt
        { mkBrowseModel "en" ⟨2021, 1, 1, 0, 0, 0, 0⟩ 0 with price := "<price>x<price>" }
        ⟨2021, 1, 1, 0, 0, 0, 0⟩ 0) "priceRange" = some (PyVal.s "x")
    ∧ "x" ≠ "x<price>" := ⟨rfl, by decide⟩

/-- C6 (amended): serialization includes `freeGame: true` exactly when
`price = "free"` (and then no `priceRange`), includes `priceRange` exactly
when the price starts with the `"<price>"` marker (bound to the price with
every occurrence of the marker removed, which is the remainder whenever the
marker occurs only as the prefix; and then no `freeGame`), includes neither
for the default empty price, and includes `onSale` (as `true`) exactly when
the flag is set — absent keys, never false-valued ones. -/
theorem browse_price_keys_characterization (m : BrowseModel) (t : PyDateTime)
    (r : Fin 1000) :
    lookupStr (m.dictAt t r) "freeGame" =
      (if m.price = "free" then some (PyVal.b true) else Option.none)
    ∧ lookupStr (m.dictAt t r) "priceRange" =
      (if m.price ≠ "free" ∧ pyStartsWith m.price "<price>" = true then
        some (PyVal.s (pyReplaceS m.price "<price>" "")) else Option.none)
    ∧ lookupStr (m.dictAt t r) "onSale" =
      (if m.onSale = true then some (PyVal.b true) else Option.none) := by
  unfold BrowseModel.dictAt
  by_cases h1 : m.price = "free"
  · by_cases h3 : m.onSale = true <;> simp [h1, h3, lookupStr]
  · by_cases h2 : pyStartsWith m.price "<price>" = true <;>
      by_cases h3 : m.onSale = true <;> simp [h1, h2, h3, lookupStr]

/-- C8: a run exiting with the sentinel code `-133742` tears the core down
and re-runs the whole startup sequence; any other exit code tears down and
terminates the loop, whatever would come after; `n` sentinel runs in a row
produce exactly `n + 1` startups. -/
theorem restart_loop_sentinel :
    (∀ rest : List Int, start_loop ((-133742) :: rest) =
        LoopEvent.startup :: LoopEvent.coreTeardown :: start_loop rest)
    ∧ (∀ (c : Int) (rest : List Int), c ≠ -133742 →
        start_loop (c :: rest) =
          [LoopEvent.startup, LoopEvent.coreTeardown, LoopEvent.terminate])
    ∧ (∀ (n : Nat) (c : Int), c ≠ -133742 →
        (start_loop (List.replicate n (-133742) ++ [c])).count LoopEvent.startup
          = n + 1) := by
  refine ⟨fun rest => by simp [start_loop],
    fun c rest hc => by simp [start_loop, hc], ?_⟩
  intro n c hc
  induction n with
  | zero =>
      rw [List.replicate_zero, List.nil_append]
      simp only [start_loop, hc, reduceIte]
      decide
  | succ k ih =>
      rw [List.replicate_succ, List.cons_append]
      simp only [start_loop, reduceIte]
      simp only [List.count_cons, ih]
      rw [if_neg (by decide), if_pos (by decide)]

/-- Witness for the C8 theorem: one sentinel run then a normal exit. -/
theorem restart_loop_sentinel_witness :
    start_loop [(-133742 : Int), 0] =
      [LoopEvent.startup, LoopEvent.coreTeardown, LoopEvent.startup,
       LoopEvent.coreTeardown, LoopEvent.terminate]
    ∧ (start_loop (List.replicate 2 (-133742 : Int) ++ [0])).count LoopEvent.startup
        = 2 + 1 := by
  refine ⟨?_, restart_loop_sentinel.2.2 2 0 (by decide)⟩
  rw [restart_loop_sentinel.1 [0], restart_loop_sentinel.2.1 0 [] (by decide)]

/-- C9: the date-range expression is fixed when the query is constructed —
the serialized `releaseDate` and `effectiveDate` equal the construction-time
`dateExpr`, and serialization does not consult the ambient clock or
randomness, so serializing the same instance any number of times yields the
identical parameter set. -/
theorem browse_serialization_deterministic (lang : String) (now : PyDateTime)
    (r : Fin 1000) (t1 t2 : PyDateTime) (r1 r2 : Fin 1000) :
    (mkBrowseModel lang now r).dictAt t1 r1 = (mkBrowseModel lang now r).dictAt t2 r2
    ∧ lookupStr ((mkBrowseModel lang now r).dictAt t1 r1) "releaseDate" =
        some (PyVal.s (dateExpr now r))
    ∧ lookupStr ((mkBrowseModel lang now r).dictAt t1 r1) "effectiveDate" =
        some (PyVal.s (dateExpr now r)) :=
  ⟨rfl, rfl, rfl⟩

/-- C10: a record whose install path and resolved executable both exist is
left completely alone by the sweep: the record (including an already-set
`needs_verification` flag) is unchanged, nothing is persisted and nothing is
uninstalled. -/
theorem sweep_intact_record_untouched (env : FsEnv) (g : InstalledGame)
    (hpath : env.pathExists g.install_path = true)
    (hexe : env.pathExists (pyPathJoin g.install_path (pyLstripSlashes (pyReplaceS
        (if env.override_exe g.app_name = "" then g.executable
         else env.override_exe g.app_name) "\\" "/"))) = true) :
    App.checkGame env g = (g, []) := by
  simp [App.checkGame, hpath, hexe]

/-- Witness for the C10 theorem: everything exists, the flag stays set, no
effect is emitted. -/
theorem sweep_intact_record_witness :
    App.checkGame ⟨fun _ => true, fun _ => ""⟩
        ⟨"game1", "Game One", "/games/one", "one.exe", true⟩ =
      (⟨"game1", "Game One", "/games/one", "one.exe", true⟩, []) :=
  sweep_intact_record_untouched ⟨fun _ => true, fun _ => ""⟩
    ⟨"game1", "Game One", "/games/one", "one.exe", true⟩ rfl rfl
